import Mathlib

/-!
# Verification of the `bevy-intersect-plane` demo

A shallow embedding, over exact rational arithmetic, of the click-driven
ray/plane hit test in `src/main.rs` (`my_cursor_system`) and of the scene
created by `setup`.  The `f32` vector algebra of the program (`glam`
`Vec2`/`Vec3`/`Quat`, bevy `Transform`) is idealised over `ℚ`; the engine
helpers that are not part of this repository (`Ray::intersect_plane`,
`Camera::viewport_to_world`, `Query::single`) are modelled from the spec and
marked as such on their definitions.
-/

set_option autoImplicit false

namespace BevyIntersectPlane

/-! ## Vectors (glam `Vec2` / `Vec3`, over `ℚ`) -/

/-- glam `Vec2`, with exact rational components. -/
@[ext]
structure Vec2 where
  x : ℚ
  y : ℚ
  deriving DecidableEq, Repr

/-- glam `Vec3`, with exact rational components. -/
@[ext]
structure Vec3 where
  x : ℚ
  y : ℚ
  z : ℚ
  deriving DecidableEq, Repr

namespace Vec2

/-- Componentwise addition (`Vec2 + Vec2`). -/
def add (a b : Vec2) : Vec2 := ⟨a.x + b.x, a.y + b.y⟩

/-- Division of a vector by a scalar (`Vec2 / f32`), as used at
`local_intersection = Vec2::new(..) / plane.size`. -/
def divScalar (a : Vec2) (s : ℚ) : Vec2 := ⟨a.x / s, a.y / s⟩

/-- glam `Vec2::splat`. -/
def splat (s : ℚ) : Vec2 := ⟨s, s⟩

end Vec2

namespace Vec3

/-- Componentwise addition. -/
def add (a b : Vec3) : Vec3 := ⟨a.x + b.x, a.y + b.y, a.z + b.z⟩

/-- Componentwise subtraction (used at `world_intersection - plane_origin`). -/
def sub (a b : Vec3) : Vec3 := ⟨a.x - b.x, a.y - b.y, a.z - b.z⟩

/-- Scalar multiple of a vector. -/
def scale (s : ℚ) (a : Vec3) : Vec3 := ⟨s * a.x, s * a.y, s * a.z⟩

/-- glam `Vec3::dot`. -/
def dot (a b : Vec3) : ℚ := a.x * b.x + a.y * b.y + a.z * b.z

/-- glam `Vec3::cross`. -/
def cross (a b : Vec3) : Vec3 :=
  ⟨a.y * b.z - a.z * b.y, a.z * b.x - a.x * b.z, a.x * b.y - a.y * b.x⟩

/-- `Vec3::ZERO`. -/
def zero : Vec3 := ⟨0, 0, 0⟩

/-- `Vec3::X`. -/
def unitX : Vec3 := ⟨1, 0, 0⟩

/-- `Vec3::Y`. -/
def unitY : Vec3 := ⟨0, 1, 0⟩

/-- `Vec3::Z`. -/
def unitZ : Vec3 := ⟨0, 0, 1⟩

end Vec3

/-- Exact integer square root by (structurally recursive) downward search:
`intSqrtBelow k n` is the largest `m ≤ k` with `m * m ≤ n`.  Only used to
give `Vec3.normalize` an executable exact-arithmetic meaning; in this
program `normalize` is only ever applied to vectors of squared length
exactly `1` (rotations of unit axes by unit quaternions), where the search
returns `1`. -/
def intSqrtBelow : Nat → Nat → Nat
  | 0, _ => 0
  | k + 1, n => if (k + 1) * (k + 1) ≤ n then k + 1 else intSqrtBelow k n

/-- Exact rational square root (exact on perfect squares; see
`intSqrtBelow`). -/
def ratSqrt (q : ℚ) : ℚ :=
  (intSqrtBelow q.num.toNat q.num.toNat : ℚ) / (intSqrtBelow q.den q.den : ℚ)

/-- glam `Vec3::normalize`: `self / self.length()`, idealised over `ℚ` with
the exact square root `ratSqrt`.  Every call site in `my_cursor_system`
applies it to `transform.rotation * axis` for a unit axis, whose squared
length is exactly `1` under a unit quaternion (`Quat.dot_mulVec3`), so
there `normalize` is the identity (`Vec3.normalize_of_dot_one`). -/
def Vec3.normalize (v : Vec3) : Vec3 :=
  Vec3.scale (1 / ratSqrt (Vec3.dot v v)) v

/-! ## Quaternions (glam `Quat`) -/

/-- glam `Quat` (x, y, z, w), with exact rational components. -/
@[ext]
structure Quat where
  x : ℚ
  y : ℚ
  z : ℚ
  w : ℚ
  deriving DecidableEq, Repr

namespace Quat

/-- `Quat::IDENTITY`. -/
def identity : Quat := ⟨0, 0, 0, 1⟩

/-- The vector (imaginary) part `b` of the quaternion. -/
def vecPart (q : Quat) : Vec3 := ⟨q.x, q.y, q.z⟩

/-- The squared length `x² + y² + z² + w²` of the quaternion. -/
def normSq (q : Quat) : ℚ := q.x * q.x + q.y * q.y + q.z * q.z + q.w * q.w

/-- The quaternion is a rotation: unit length. -/
def IsUnit (q : Quat) : Prop := q.normSq = 1

instance (q : Quat) : Decidable q.IsUnit := by
  unfold IsUnit; infer_instance

/-- glam `Quat::mul_vec3` (the scalar code path):
`rhs * (w² - b·b) + b * (2 (rhs·b)) + (b × rhs) * (2 w)`
for `b` the vector part.  This is `transform.rotation * v` in the source. -/
def mulVec3 (q : Quat) (v : Vec3) : Vec3 :=
  let b := q.vecPart
  let b2 := Vec3.dot b b
  Vec3.add (Vec3.add (Vec3.scale (q.w * q.w - b2) v)
      (Vec3.scale (2 * Vec3.dot v b) b))
    (Vec3.scale (2 * q.w) (Vec3.cross b v))

end Quat

/-! ## Transforms and rays -/

/-- bevy `Transform` (translation, rotation, scale); the hit test reads only
`translation` and `rotation`. -/
@[ext]
structure Transform where
  translation : Vec3
  rotation : Quat
  scale : Vec3
  deriving DecidableEq, Repr

namespace Transform

/-- `Transform::IDENTITY` / `Default::default()`. -/
def identity : Transform := ⟨Vec3.zero, Quat.identity, ⟨1, 1, 1⟩⟩

/-- `Transform::from_xyz`. -/
def from_xyz (x y z : ℚ) : Transform := ⟨⟨x, y, z⟩, Quat.identity, ⟨1, 1, 1⟩⟩

/-- `Transform::from_translation`. -/
def from_translation (v : Vec3) : Transform := ⟨v, Quat.identity, ⟨1, 1, 1⟩⟩

end Transform

/-- bevy `Ray`: origin plus direction. -/
@[ext]
structure Ray where
  origin : Vec3
  direction : Vec3
  deriving DecidableEq, Repr

namespace Ray

/-- bevy `Ray::get_point(distance)`: `origin + direction * distance`. -/
def get_point (ray : Ray) (distance : ℚ) : Vec3 :=
  Vec3.add ray.origin (Vec3.scale distance ray.direction)

/-- Modelled from the spec: bevy's `Ray::intersect_plane` is engine code not
in this repository's sources.  Per the spec (§4.2): it solves
`dot(origin + t*dir - plane_origin, normal) = 0`; if `dot(dir, normal) == 0`
(ray parallel to plane) it reports no intersection; otherwise it returns the
signed distance `t` — negative distances (plane behind the ray origin)
included. -/
def intersect_plane (ray : Ray) (plane_origin plane_normal : Vec3) : Option ℚ :=
  let denominator := Vec3.dot plane_normal ray.direction
  if denominator = 0 then none
  else some (Vec3.dot (Vec3.sub plane_origin ray.origin) plane_normal / denominator)

end Ray

/-! ## The scene data and the hit-test system (`src/main.rs`) -/

/-- The `MyPlane` component: the stored side length of a square plane. -/
@[ext]
structure MyPlane where
  size : ℚ
  deriving DecidableEq, Repr

/-- `MyPlane::new`. -/
def MyPlane.new (size : ℚ) : MyPlane := ⟨size⟩

/-- `Color::rgb` (we only track the three channels the program sets). -/
@[ext]
structure Color where
  r : ℚ
  g : ℚ
  b : ℚ
  deriving DecidableEq, Repr

/-- The in-bounds marker color, `Color::rgb(0.1, 0.8, 0.2)`. -/
def greenColor : Color := ⟨1/10, 4/5, 1/5⟩

/-- The out-of-bounds marker color, `Color::rgb(0.8, 0.1, 0.2)`. -/
def redColor : Color := ⟨4/5, 1/10, 1/5⟩

/-- One row of the `q_plane` query `Query<(Entity, &Transform, &MyPlane)>`:
entity id (bevy `Entity`, modelled as `Nat`), transform, plane component. -/
@[ext]
structure PlaneEnt where
  entity : Nat
  transform : Transform
  plane : MyPlane
  deriving DecidableEq, Repr

/-- A marker cube spawned by `my_cursor_system`: a `PbrBundle` with mesh
`Cube { size: 0.1 }`, a material color, and
`Transform::from_translation(world_intersection)`. -/
@[ext]
structure MarkerSpawn where
  position : Vec3
  color : Color
  cubeSize : ℚ
  deriving DecidableEq, Repr

/-- The data of one diagnostic line written by the `println!` at the hit:
the plane's entity id and the two printed coordinates
`local_intersection + Vec2::splat(0.5)`.  The source renders this as the
string `"{entity:?}: hit at {x:.2},{y:.2} within surface"`; the rounded
decimal rendering is an `f32` formatting detail and we keep the exact
payload instead. -/
@[ext]
structure HitLine where
  entity : Nat
  x : ℚ
  y : ℚ
  deriving DecidableEq, Repr

/-- Lines 114–117: `plane_origin = transform.translation` and
`plane_normal = (transform.rotation * Vec3::Y).normalize()`. -/
def planeNormal (transform : Transform) : Vec3 :=
  (Quat.mulVec3 transform.rotation Vec3.unitY).normalize

/-- Lines 118–120: the intersection of the cursor ray with the plane's
supporting plane, as a world point:
`ray.intersect_plane(plane_origin, plane_normal).map(|d| ray.get_point(d))`. -/
def intersectionPoint (ray : Ray) (transform : Transform) : Option Vec3 :=
  (ray.intersect_plane transform.translation (planeNormal transform)).map ray.get_point

/-- Lines 125–135: translate the world intersection by the plane origin,
project onto the rotated X and Z axes
(`x_axis = (transform.rotation * Vec3::X).normalize()`, likewise Z), and
divide by the plane's side length. -/
def localCoords (transform : Transform) (size : ℚ) (world_intersection : Vec3) : Vec2 :=
  let local_intersection := Vec3.sub world_intersection transform.translation
  let x_axis := (Quat.mulVec3 transform.rotation Vec3.unitX).normalize
  let z_axis := (Quat.mulVec3 transform.rotation Vec3.unitZ).normalize
  let x_projection := Vec3.dot local_intersection x_axis
  let z_projection := Vec3.dot local_intersection z_axis
  Vec2.divScalar ⟨x_projection, z_projection⟩ size

/-- Line 141: `local_intersection.x.abs() <= 0.5 && local_intersection.y.abs() <= 0.5`. -/
def withinBounds (local_intersection : Vec2) : Bool :=
  |local_intersection.x| ≤ 1/2 && |local_intersection.y| ≤ 1/2

/-- The body of the `for (entity, transform, plane) in q_plane.iter()` loop
(lines 113–165): intersect the ray with this plane, and if an intersection
point exists classify it and spawn exactly one cube marker (green within
bounds, red otherwise), printing a diagnostic line only in the green case.
Returns the markers spawned and the lines printed for this plane. -/
def processPlane (ray : Ray) (ent : PlaneEnt) : List MarkerSpawn × List HitLine :=
  match intersectionPoint ray ent.transform with
  | none => ([], [])
  | some world_intersection =>
    let local_intersection := localCoords ent.transform ent.plane.size world_intersection
    if withinBounds local_intersection then
      let printed := Vec2.add local_intersection (Vec2.splat (1/2))
      ([⟨world_intersection, greenColor, 1/10⟩], [⟨ent.entity, printed.x, printed.y⟩])
    else
      ([⟨world_intersection, redColor, 1/10⟩], [])

/-- Modelled from the spec: the primary `Window`, of which the system reads
only `cursor_position()` — `Some` pixel position when the cursor is inside
the window, `None` otherwise.  The windowing layer itself is not in this
repository's sources. -/
structure Window where
  cursor_position : Option Vec2

/-- Modelled from the spec: the `(Camera, GlobalTransform)` pair, used only
through `Camera::viewport_to_world(camera_transform, cursor)`, which per the
spec converts a cursor position into a world-space ray and fails (`None`)
when the camera has no valid transform for the conversion.  That conversion
is engine code not in this repository's sources, so we carry it as an
abstract function bundled with the camera. -/
structure CameraEnv where
  viewport_to_world : Vec2 → Option Ray

/-- Modelled from the spec: the per-frame external inputs of
`my_cursor_system` — whether the left mouse button was just pressed, the
primary window, and the main camera.  Per the spec (§7), absence of the
window or the camera makes the system silently do nothing, which we model
by `Option`. -/
structure Env where
  pressed : Bool
  window : Option Window
  camera : Option CameraEnv

/-- Lines 104–111: obtain the camera and window, then
`window.cursor_position().and_then(|cursor| camera.viewport_to_world(..., cursor))`.
`None` when the window, the camera, the cursor position, or the viewport
conversion is absent. -/
def computeRay (window : Option Window) (camera : Option CameraEnv) : Option Ray :=
  match camera, window with
  | some cam, some win => win.cursor_position.bind cam.viewport_to_world
  | _, _ => none

/-- `my_cursor_system` (lines 86–168): on a left click, compute the cursor
ray and run the hit test over every row of the plane query, collecting the
spawned markers and printed lines in query order.  Does nothing when the
button was not just pressed or no ray could be computed. -/
def my_cursor_system (env : Env) (planes : List PlaneEnt) :
    List MarkerSpawn × List HitLine :=
  if !env.pressed then ([], [])
  else
    match computeRay env.window env.camera with
    | none => ([], [])
    | some ray =>
      ((planes.map fun ent => (processPlane ray ent).1).flatten,
       (planes.map fun ent => (processPlane ray ent).2).flatten)

/-! ## The entity store

A small model of the ECS world as far as this program touches it: each
spawned entity keeps its id, its transform, its optional `MyPlane`
component, and its optional `StandardMaterial` base color.  `Commands`
spawning appends entities with fresh increasing ids. -/

/-- One spawned entity: id, transform, optional `MyPlane` component,
optional material base color.  Meshes, lights and camera parameters are not
tracked — no claim depends on them beyond the presence or absence of
`MyPlane`. -/
@[ext]
structure EntityRec where
  id : Nat
  transform : Transform
  myPlane : Option MyPlane
  material : Option Color
  deriving DecidableEq, Repr

/-- The entity store: the next fresh id and the spawned entities in spawn
order. -/
@[ext]
structure World where
  nextId : Nat
  entities : List EntityRec
  deriving DecidableEq, Repr

/-- `setup` (lines 30–84): spawns plane 1 (`MyPlane::new(3.0)`, default
transform, color `rgb(0.6, 0.55, 0.3)`), plane 2 (`MyPlane::new(2.0)`,
a translated transform rotated by `TAU * 0.1` about Z, Y and X, color
`rgb(0.8, 0.75, 0.6)`), a point light at `(4, 8, 4)`, and the main camera
at `(-2, 2.5, 5)` looking at the origin.  The quaternion entries of plane
2's rotation (cosines and sines of multiples of `TAU * 0.1`) and of the
camera's `looking_at` rotation are irrational, so those two transforms are
parameters of the exact-arithmetic model — no claim depends on their
numeric values. -/
def setup (plane2_transform camera_transform : Transform) : World :=
  { nextId := 4
    entities :=
      [ ⟨0, Transform.identity, some (MyPlane.new 3), some ⟨3/5, 11/20, 3/10⟩⟩,
        ⟨1, plane2_transform, some (MyPlane.new 2), some ⟨4/5, 3/4, 3/5⟩⟩,
        ⟨2, Transform.from_xyz 4 8 4, none, none⟩,
        ⟨3, camera_transform, none, none⟩ ] }

/-- The rows of the `q_plane` query `Query<(Entity, &Transform, &MyPlane)>`
over a world: every entity holding a `MyPlane` component, in store order. -/
def planesOf (w : World) : List PlaneEnt :=
  w.entities.filterMap fun e => e.myPlane.map fun p => ⟨e.id, e.transform, p⟩

/-- The entities created by `commands.spawn(PbrBundle { .. })` for a list of
markers, with fresh ids from `startId`: translation at the intersection
point, the chosen material color, and no `MyPlane` component. -/
def markerEntities (startId : Nat) (spawns : List MarkerSpawn) : List EntityRec :=
  spawns.enum.map fun p =>
    ⟨startId + p.1, Transform.from_translation p.2.position, none, some p.2.color⟩

/-- The markers `my_cursor_system` spawns when run against the planes of a
world. -/
def clickSpawns (env : Env) (w : World) : List MarkerSpawn :=
  (my_cursor_system env (planesOf w)).1

/-- One frame in which `my_cursor_system` runs: the hit test runs over the
world's plane query and the resulting marker cubes are spawned into the
world.  Nothing is ever despawned. -/
def clickStep (env : Env) (w : World) : World :=
  let spawns := clickSpawns env w
  { nextId := w.nextId + spawns.length
    entities := w.entities ++ markerEntities w.nextId spawns }

/-! ## Algebraic facts about the embedded vector algebra -/

theorem ratSqrt_one : ratSqrt 1 = 1 := by
  norm_num [ratSqrt, intSqrtBelow]

theorem Vec3.dot_comm (a b : Vec3) : Vec3.dot a b = Vec3.dot b a := by
  simp only [Vec3.dot]; ring

theorem Vec3.dot_add_scale_left (a b : ℚ) (u v w : Vec3) :
    Vec3.dot (Vec3.add (Vec3.scale a u) (Vec3.scale b v)) w =
      a * Vec3.dot u w + b * Vec3.dot v w := by
  simp only [Vec3.dot, Vec3.add, Vec3.scale]; ring

theorem Vec3.sub_add_cancel_left (o v : Vec3) : Vec3.sub (Vec3.add o v) o = v := by
  ext <;> simp [Vec3.sub, Vec3.add]

/-- A vector of squared length exactly `1` is its own `normalize`. -/
theorem Vec3.normalize_of_dot_one (v : Vec3) (h : Vec3.dot v v = 1) :
    v.normalize = v := by
  unfold Vec3.normalize
  rw [h, ratSqrt_one]
  ext <;> simp [Vec3.scale]

/-- Rotating by a quaternion scales dot products by the square of the
quaternion's squared length: for a unit quaternion, `mul_vec3` preserves
them exactly. -/
theorem Quat.dot_mulVec3 (q : Quat) (u v : Vec3) :
    Vec3.dot (q.mulVec3 u) (q.mulVec3 v) = q.normSq ^ 2 * Vec3.dot u v := by
  obtain ⟨x, y, z, w⟩ := q
  obtain ⟨ux, uy, uz⟩ := u
  obtain ⟨vx, vy, vz⟩ := v
  simp only [Quat.mulVec3, Quat.vecPart, Quat.normSq, Vec3.dot, Vec3.add, Vec3.scale,
    Vec3.cross]
  ring

theorem Quat.dot_mulVec3_of_unit (q : Quat) (hq : q.IsUnit) (u v : Vec3) :
    Vec3.dot (q.mulVec3 u) (q.mulVec3 v) = Vec3.dot u v := by
  rw [Quat.dot_mulVec3, hq]; ring

/-! ## Facts about the entity store -/

theorem planesOf_entities_append (n : Nat) (es : List EntityRec)
    (spawns : List MarkerSpawn) :
    (World.mk n (es ++ markerEntities n spawns)).entities.filterMap
        (fun e => e.myPlane.map fun p => PlaneEnt.mk e.id e.transform p) =
      es.filterMap (fun e => e.myPlane.map fun p => PlaneEnt.mk e.id e.transform p) := by
  simp [List.filterMap_append, markerEntities, List.filterMap_map, Function.comp]

/-- Spawning markers does not change the rows of the plane query. -/
theorem planesOf_clickStep (env : Env) (w : World) :
    planesOf (clickStep env w) = planesOf w := by
  simp only [planesOf, clickStep]
  exact planesOf_entities_append w.nextId w.entities (clickSpawns env w)

theorem planesOf_foldl_clickStep (envs : List Env) (w : World) :
    planesOf (envs.foldl (fun acc e => clickStep e acc) w) = planesOf w := by
  induction envs generalizing w with
  | nil => rfl
  | cons e es ih => rw [List.foldl_cons, ih, planesOf_clickStep]

/-! ## The claims -/

/-- C1: for every ray and every plane whose derived normal is not
perpendicular to the ray's direction, the hit test returns the signed
intersection distance `t` — the exact quotient, never clamped at zero — the
intersection point `origin + t * dir` is produced, and exactly one marker is
spawned there for that plane; nothing in the statement excludes `t < 0`
(the witness below hits a plane strictly behind the ray origin). -/
theorem hit_accepts_any_signed_distance (ray : Ray) (ent : PlaneEnt)
    (h : Vec3.dot (planeNormal ent.transform) ray.direction ≠ 0) :
    ∃ t : ℚ,
      Ray.intersect_plane ray ent.transform.translation (planeNormal ent.transform) =
        some t ∧
      t = Vec3.dot (Vec3.sub ent.transform.translation ray.origin)
            (planeNormal ent.transform) /
          Vec3.dot (planeNormal ent.transform) ray.direction ∧
      intersectionPoint ray ent.transform = some (ray.get_point t) ∧
      ∃ c : Color, (processPlane ray ent).1 = [⟨ray.get_point t, c, 1/10⟩] := by
  have hi : Ray.intersect_plane ray ent.transform.translation (planeNormal ent.transform) =
      some (Vec3.dot (Vec3.sub ent.transform.translation ray.origin)
              (planeNormal ent.transform) /
            Vec3.dot (planeNormal ent.transform) ray.direction) := by
    simp [Ray.intersect_plane, h]
  refine ⟨_, hi, rfl, ?_, ?_⟩
  · simp [intersectionPoint, hi]
  · simp only [processPlane, intersectionPoint, hi, Option.map_some']
    by_cases hw : withinBounds (localCoords ent.transform ent.plane.size
        (ray.get_point (Vec3.dot (Vec3.sub ent.transform.translation ray.origin)
            (planeNormal ent.transform) /
          Vec3.dot (planeNormal ent.transform) ray.direction))) = true
    · exact ⟨greenColor, by simp [hw]⟩
    · exact ⟨redColor, by simp [hw]⟩

/-- C1, witness: a plane through the origin facing `+Y` and a ray starting
at `(0, -5, 0)` pointing further down: the signed distance is `-5 < 0`
(plane strictly behind the ray origin) and a marker is still spawned at the
intersection point `(0, 0, 0)`. -/
theorem hit_accepts_any_signed_distance_witness :
    Vec3.dot (planeNormal Transform.identity) (⟨0, -1, 0⟩ : Vec3) ≠ 0 ∧
    (∃ t : ℚ,
      Ray.intersect_plane ⟨⟨0, -5, 0⟩, ⟨0, -1, 0⟩⟩ Transform.identity.translation
          (planeNormal Transform.identity) = some t ∧
      t = Vec3.dot (Vec3.sub Transform.identity.translation ⟨0, -5, 0⟩)
            (planeNormal Transform.identity) /
          Vec3.dot (planeNormal Transform.identity) ⟨0, -1, 0⟩ ∧
      intersectionPoint ⟨⟨0, -5, 0⟩, ⟨0, -1, 0⟩⟩ Transform.identity =
        some (Ray.get_point ⟨⟨0, -5, 0⟩, ⟨0, -1, 0⟩⟩ t) ∧
      ∃ c : Color, (processPlane ⟨⟨0, -5, 0⟩, ⟨0, -1, 0⟩⟩
          ⟨0, Transform.identity, MyPlane.new 3⟩).1 =
        [⟨Ray.get_point ⟨⟨0, -5, 0⟩, ⟨0, -1, 0⟩⟩ t, c, 1/10⟩]) ∧
    Ray.intersect_plane ⟨⟨0, -5, 0⟩, ⟨0, -1, 0⟩⟩ Transform.identity.translation
        (planeNormal Transform.identity) = some (-5) ∧
    (-5 : ℚ) < 0 ∧
    (processPlane ⟨⟨0, -5, 0⟩, ⟨0, -1, 0⟩⟩ ⟨0, Transform.identity, MyPlane.new 3⟩).1 =
      [⟨⟨0, 0, 0⟩, greenColor, 1/10⟩] :=
  ⟨by norm_num [planeNormal, Quat.mulVec3, Quat.vecPart, Quat.identity, Vec3.unitY,
      Vec3.dot, Vec3.cross, Vec3.add, Vec3.scale, Vec3.normalize, ratSqrt, intSqrtBelow,
      Transform.identity, Vec3.zero],
   hit_accepts_any_signed_distance ⟨⟨0, -5, 0⟩, ⟨0, -1, 0⟩⟩
     ⟨0, Transform.identity, MyPlane.new 3⟩
     (by norm_num [planeNormal, Quat.mulVec3, Quat.vecPart, Quat.identity, Vec3.unitY,
        Vec3.dot, Vec3.cross, Vec3.add, Vec3.scale, Vec3.normalize, ratSqrt, intSqrtBelow,
        Transform.identity, Vec3.zero]),
   by norm_num [Ray.intersect_plane, planeNormal, Quat.mulVec3, Quat.vecPart,
      Quat.identity, Vec3.unitY, Vec3.dot, Vec3.cross, Vec3.add, Vec3.sub, Vec3.scale,
      Vec3.normalize, ratSqrt, intSqrtBelow, Transform.identity, Vec3.zero],
   by norm_num,
   by norm_num [processPlane, intersectionPoint, Ray.intersect_plane, Ray.get_point,
      planeNormal, localCoords, withinBounds, Quat.mulVec3, Quat.vecPart, Quat.identity,
      Vec3.unitX, Vec3.unitY, Vec3.unitZ, Vec3.dot, Vec3.cross, Vec3.add, Vec3.sub,
      Vec3.scale, Vec3.normalize, Vec2.divScalar, ratSqrt, intSqrtBelow,
      Transform.identity, Vec3.zero]⟩

/-- C2: when the left button was just pressed but the primary window, the
main camera, or a usable cursor ray is absent, `my_cursor_system` does
nothing at all: no markers are spawned and no line is printed, for any set
of planes (the model is total, so in particular no panic occurs). -/
theorem absent_inputs_do_nothing (env : Env) (planes : List PlaneEnt)
    (h : env.window = none ∨ env.camera = none ∨
         computeRay env.window env.camera = none) :
    my_cursor_system env planes = ([], []) := by
  have hr : computeRay env.window env.camera = none := by
    rcases h with h | h | h
    · cases hc : env.camera <;> simp [computeRay, h]
    · simp [computeRay, h]
    · exact h
  unfold my_cursor_system
  cases env.pressed <;> simp [hr]

/-- C2, witness: a click with no primary window (and a camera that cannot
project) spawns nothing and prints nothing. -/
theorem absent_inputs_do_nothing_witness :
    ((⟨true, none, some ⟨fun _ => none⟩⟩ : Env).window = none ∨
     (⟨true, none, some ⟨fun _ => none⟩⟩ : Env).camera = none ∨
     computeRay (⟨true, none, some ⟨fun _ => none⟩⟩ : Env).window
       (⟨true, none, some ⟨fun _ => none⟩⟩ : Env).camera = none) ∧
    my_cursor_system ⟨true, none, some ⟨fun _ => none⟩⟩
      [⟨0, Transform.identity, MyPlane.new 3⟩] = ([], []) :=
  ⟨Or.inl rfl,
   absent_inputs_do_nothing ⟨true, none, some ⟨fun _ => none⟩⟩
     [⟨0, Transform.identity, MyPlane.new 3⟩] (Or.inl rfl)⟩

/-- C3: a ray whose direction has zero dot product with the plane's derived
normal gets no intersection from the hit test, hence no intersection point
and neither a marker nor a printed line for that plane. -/
theorem parallel_ray_spawns_nothing (ray : Ray) (ent : PlaneEnt)
    (h : Vec3.dot (planeNormal ent.transform) ray.direction = 0) :
    Ray.intersect_plane ray ent.transform.translation (planeNormal ent.transform) =
      none ∧
    intersectionPoint ray ent.transform = none ∧
    processPlane ray ent = ([], []) := by
  have hi : Ray.intersect_plane ray ent.transform.translation
      (planeNormal ent.transform) = none := by
    simp [Ray.intersect_plane, h]
  exact ⟨hi, by simp [intersectionPoint, hi], by simp [processPlane, intersectionPoint, hi]⟩

/-- C3, witness: a horizontal ray over the untilted plane (direction
`(1, 0, 0)`, normal `(0, 1, 0)`) produces no intersection, no marker and no
line. -/
theorem parallel_ray_spawns_nothing_witness :
    Vec3.dot (planeNormal Transform.identity) (⟨1, 0, 0⟩ : Vec3) = 0 ∧
    (Ray.intersect_plane ⟨⟨0, 5, 0⟩, ⟨1, 0, 0⟩⟩ Transform.identity.translation
        (planeNormal Transform.identity) = none ∧
      intersectionPoint ⟨⟨0, 5, 0⟩, ⟨1, 0, 0⟩⟩ Transform.identity = none ∧
      processPlane ⟨⟨0, 5, 0⟩, ⟨1, 0, 0⟩⟩ ⟨0, Transform.identity, MyPlane.new 3⟩ =
        ([], [])) :=
  ⟨by norm_num [planeNormal, Quat.mulVec3, Quat.vecPart, Quat.identity, Vec3.unitY,
      Vec3.dot, Vec3.cross, Vec3.add, Vec3.scale, Vec3.normalize, ratSqrt, intSqrtBelow,
      Transform.identity, Vec3.zero],
   parallel_ray_spawns_nothing ⟨⟨0, 5, 0⟩, ⟨1, 0, 0⟩⟩
     ⟨0, Transform.identity, MyPlane.new 3⟩
     (by norm_num [planeNormal, Quat.mulVec3, Quat.vecPart, Quat.identity, Vec3.unitY,
        Vec3.dot, Vec3.cross, Vec3.add, Vec3.scale, Vec3.normalize, ratSqrt, intSqrtBelow,
        Transform.identity, Vec3.zero])⟩

/-- The spec's classification, written from the spec's words (§4.2, steps
3–5): local offset `L = P - O`, projected coordinates
`(u, v) = (dot(L, X_axis), dot(L, Z_axis)) / s`, within bounds iff
`|u| <= 0.5` and `|v| <= 0.5`, inclusively. -/
def spec_withinBounds (P O x_axis z_axis : Vec3) (s : ℚ) : Prop :=
  |Vec3.dot (Vec3.sub P O) x_axis / s| ≤ 1/2 ∧
  |Vec3.dot (Vec3.sub P O) z_axis / s| ≤ 1/2

/-- C4: the code's local coordinates are exactly the spec's
`(dot(L, X_axis), dot(L, Z_axis)) / s` for `L = P - O` and the
rotation-derived axes; its classification holds iff `|u| ≤ 1/2 ∧ |v| ≤ 1/2`;
and the comparison is inclusive: both boundary corners `|u| = 1/2` count as
within bounds. -/
theorem projection_matches_spec_inclusive (transform : Transform) (size : ℚ) (P : Vec3) :
    localCoords transform size P =
      ⟨Vec3.dot (Vec3.sub P transform.translation)
          ((Quat.mulVec3 transform.rotation Vec3.unitX).normalize) / size,
        Vec3.dot (Vec3.sub P transform.translation)
          ((Quat.mulVec3 transform.rotation Vec3.unitZ).normalize) / size⟩ ∧
    (withinBounds (localCoords transform size P) = true ↔
      spec_withinBounds P transform.translation
        ((Quat.mulVec3 transform.rotation Vec3.unitX).normalize)
        ((Quat.mulVec3 transform.rotation Vec3.unitZ).normalize) size) ∧
    withinBounds ⟨1/2, 1/2⟩ = true ∧
    withinBounds ⟨-(1/2), -(1/2)⟩ = true := by
  refine ⟨rfl, ?_, ?_, ?_⟩
  · simp [withinBounds, spec_withinBounds, localCoords, Vec2.divScalar]
  · norm_num [withinBounds, abs_le]
  · norm_num [withinBounds, abs_le]

/-- C5: the spec's worked example — plane centered at the origin with
normal `(0, 1, 0)` (identity rotation) and side length 2, ray from
`(0, 5, 0)` straight down — intersects at `(0, 0, 0)`, is classified within
bounds, and reports normalized surface coordinates `(0.5, 0.5)`. -/
theorem straight_down_example (e : Nat) :
    planeNormal Transform.identity = ⟨0, 1, 0⟩ ∧
    intersectionPoint ⟨⟨0, 5, 0⟩, ⟨0, -1, 0⟩⟩ Transform.identity = some ⟨0, 0, 0⟩ ∧
    withinBounds (localCoords Transform.identity 2 ⟨0, 0, 0⟩) = true ∧
    processPlane ⟨⟨0, 5, 0⟩, ⟨0, -1, 0⟩⟩ ⟨e, Transform.identity, MyPlane.new 2⟩ =
      ([⟨⟨0, 0, 0⟩, greenColor, 1/10⟩], [⟨e, 1/2, 1/2⟩]) := by
  norm_num [processPlane, intersectionPoint, Ray.intersect_plane, Ray.get_point,
    planeNormal, localCoords, withinBounds, Quat.mulVec3, Quat.vecPart, Quat.identity,
    Vec3.unitX, Vec3.unitY, Vec3.unitZ, Vec3.dot, Vec3.cross, Vec3.add, Vec3.sub,
    Vec3.scale, Vec3.normalize, Vec2.divScalar, Vec2.add, Vec2.splat, ratSqrt,
    intSqrtBelow, Transform.identity, Vec3.zero, MyPlane.new]

/-- C6: whenever the hit test yields an intersection point for a plane,
exactly one cube marker of side `0.1` is spawned at that world point, green
`rgb(0.1, 0.8, 0.2)` when classified within bounds and red
`rgb(0.8, 0.1, 0.2)` otherwise; and a click only ever appends the new
markers to the world's entities — nothing is cleaned up. -/
theorem one_marker_per_intersection (ray : Ray) (ent : PlaneEnt) (P : Vec3)
    (h : intersectionPoint ray ent.transform = some P) :
    (processPlane ray ent).1 =
      [⟨P, if withinBounds (localCoords ent.transform ent.plane.size P) then greenColor
            else redColor, 1/10⟩] ∧
    greenColor = ⟨1/10, 4/5, 1/5⟩ ∧ redColor = ⟨4/5, 1/10, 1/5⟩ ∧
    ∀ (env : Env) (w : World), (clickStep env w).entities =
      w.entities ++ markerEntities w.nextId (clickSpawns env w) := by
  refine ⟨?_, rfl, rfl, fun env w => rfl⟩
  simp only [processPlane, h]
  by_cases hw : withinBounds (localCoords ent.transform ent.plane.size P) = true
  · simp [hw]
  · simp [hw]

/-- C6, witness: the ray down from `(1, 5, 1)` meets the untilted side-2
plane at `(1, 0, 1)` — the exact corner, classified within bounds — and
exactly one green marker is spawned there. -/
theorem one_marker_per_intersection_witness :
    intersectionPoint ⟨⟨1, 5, 1⟩, ⟨0, -1, 0⟩⟩ Transform.identity = some ⟨1, 0, 1⟩ ∧
    ((processPlane ⟨⟨1, 5, 1⟩, ⟨0, -1, 0⟩⟩ ⟨4, Transform.identity, MyPlane.new 2⟩).1 =
      [⟨⟨1, 0, 1⟩,
        if withinBounds (localCoords Transform.identity (MyPlane.new 2).size ⟨1, 0, 1⟩)
        then greenColor else redColor, 1/10⟩] ∧
      greenColor = ⟨1/10, 4/5, 1/5⟩ ∧ redColor = ⟨4/5, 1/10, 1/5⟩ ∧
      ∀ (env : Env) (w : World), (clickStep env w).entities =
        w.entities ++ markerEntities w.nextId (clickSpawns env w)) ∧
    (processPlane ⟨⟨1, 5, 1⟩, ⟨0, -1, 0⟩⟩ ⟨4, Transform.identity, MyPlane.new 2⟩).1 =
      [⟨⟨1, 0, 1⟩, greenColor, 1/10⟩] :=
  ⟨by norm_num [intersectionPoint, Ray.intersect_plane, Ray.get_point, planeNormal,
      Quat.mulVec3, Quat.vecPart, Quat.identity, Vec3.unitY, Vec3.dot, Vec3.cross,
      Vec3.add, Vec3.sub, Vec3.scale, Vec3.normalize, ratSqrt, intSqrtBelow,
      Transform.identity, Vec3.zero],
   one_marker_per_intersection ⟨⟨1, 5, 1⟩, ⟨0, -1, 0⟩⟩
     ⟨4, Transform.identity, MyPlane.new 2⟩ ⟨1, 0, 1⟩
     (by norm_num [intersectionPoint, Ray.intersect_plane, Ray.get_point, planeNormal,
        Quat.mulVec3, Quat.vecPart, Quat.identity, Vec3.unitY, Vec3.dot, Vec3.cross,
        Vec3.add, Vec3.sub, Vec3.scale, Vec3.normalize, ratSqrt, intSqrtBelow,
        Transform.identity, Vec3.zero]),
   by norm_num [processPlane, intersectionPoint, Ray.intersect_plane, Ray.get_point,
      planeNormal, localCoords, withinBounds, Quat.mulVec3, Quat.vecPart, Quat.identity,
      Vec3.unitX, Vec3.unitY, Vec3.unitZ, Vec3.dot, Vec3.cross, Vec3.add, Vec3.sub,
      Vec3.scale, Vec3.normalize, Vec2.divScalar, ratSqrt, intSqrtBelow,
      Transform.identity, Vec3.zero, MyPlane.new, abs_le]⟩

/-- C7: a diagnostic line is produced for a plane iff its hit is classified
within bounds, and then it is the single line carrying the plane's entity
id and the shifted coordinates `(u + 0.5, v + 0.5)`; out-of-bounds hits and
missed planes print nothing.  (The source renders the line as
`"{entity:?}: hit at {x:.2},{y:.2} within surface"`; the model keeps the
entity id and the exact coordinate payload of that line.) -/
theorem line_iff_within_bounds (ray : Ray) (ent : PlaneEnt) :
    ((processPlane ray ent).2 ≠ [] ↔
      ∃ P, intersectionPoint ray ent.transform = some P ∧
        withinBounds (localCoords ent.transform ent.plane.size P) = true) ∧
    ∀ P, intersectionPoint ray ent.transform = some P →
      withinBounds (localCoords ent.transform ent.plane.size P) = true →
      (processPlane ray ent).2 =
        [⟨ent.entity, (localCoords ent.transform ent.plane.size P).x + 1/2,
          (localCoords ent.transform ent.plane.size P).y + 1/2⟩] := by
  constructor
  · cases hI : intersectionPoint ray ent.transform with
    | none => simp [processPlane, hI]
    | some P =>
      by_cases hw : withinBounds (localCoords ent.transform ent.plane.size P) = true
      · simp [processPlane, hI, hw]
      · simp [processPlane, hI, hw]
  · intro P hI hw
    simp [processPlane, hI, hw, Vec2.add, Vec2.splat]

/-- C8: round-trip through steps 3–5 of the hit test under an arbitrary
rotation: for any unit quaternion `q`, plane origin `O` and side length
`s`, the point on the plane's surface at offset `a` along the rotated X
axis and `b` along the rotated Z axis projects back to exactly
`(a / s, b / s)` — the basis vectors being re-derived from the transform's
rotation, not assumed axis-aligned. -/
theorem roundtrip_rotated_projection (q : Quat) (O sc : Vec3) (s a b : ℚ)
    (hq : q.IsUnit) :
    localCoords ⟨O, q, sc⟩ s
      (Vec3.add O (Vec3.add
        (Vec3.scale a ((Quat.mulVec3 q Vec3.unitX).normalize))
        (Vec3.scale b ((Quat.mulVec3 q Vec3.unitZ).normalize)))) =
      ⟨a / s, b / s⟩ := by
  have hx : Vec3.dot (q.mulVec3 Vec3.unitX) (q.mulVec3 Vec3.unitX) = 1 := by
    rw [Quat.dot_mulVec3_of_unit q hq]; norm_num [Vec3.dot, Vec3.unitX]
  have hz : Vec3.dot (q.mulVec3 Vec3.unitZ) (q.mulVec3 Vec3.unitZ) = 1 := by
    rw [Quat.dot_mulVec3_of_unit q hq]; norm_num [Vec3.dot, Vec3.unitZ]
  have hxz : Vec3.dot (q.mulVec3 Vec3.unitX) (q.mulVec3 Vec3.unitZ) = 0 := by
    rw [Quat.dot_mulVec3_of_unit q hq]; norm_num [Vec3.dot, Vec3.unitX, Vec3.unitZ]
  have hzx : Vec3.dot (q.mulVec3 Vec3.unitZ) (q.mulVec3 Vec3.unitX) = 0 := by
    rw [Vec3.dot_comm]; exact hxz
  simp only [localCoords, Vec3.normalize_of_dot_one _ hx, Vec3.normalize_of_dot_one _ hz,
    Vec3.sub_add_cancel_left, Vec3.dot_add_scale_left, Vec2.divScalar]
  rw [hx, hz, hxz, hzx]
  ext <;> ring

/-- C8, witness: the concrete unit quaternion `(0, 3/5, 0, 4/5)` (a
rotation about Y with irrational-free entries), plane origin `(1, 2, 3)`,
side length 2: the surface point at offsets `(1, 3)` along the rotated
axes projects back to `(1/2, 3/2)`. -/
theorem roundtrip_rotated_projection_witness :
    (Quat.IsUnit ⟨0, 3/5, 0, 4/5⟩) ∧
    localCoords ⟨⟨1, 2, 3⟩, ⟨0, 3/5, 0, 4/5⟩, ⟨1, 1, 1⟩⟩ 2
      (Vec3.add ⟨1, 2, 3⟩ (Vec3.add
        (Vec3.scale 1 ((Quat.mulVec3 ⟨0, 3/5, 0, 4/5⟩ Vec3.unitX).normalize))
        (Vec3.scale 3 ((Quat.mulVec3 ⟨0, 3/5, 0, 4/5⟩ Vec3.unitZ).normalize)))) =
      ⟨1 / 2, 3 / 2⟩ :=
  ⟨by norm_num [Quat.IsUnit, Quat.normSq],
   roundtrip_rotated_projection ⟨0, 3/5, 0, 4/5⟩ ⟨1, 2, 3⟩ ⟨1, 1, 1⟩ 2 1 3
     (by norm_num [Quat.IsUnit, Quat.normSq])⟩

/-- C9: the click handler is deterministic — repeating the identical click
scenario on the world it just produced spawns exactly the same markers
(same world positions, same colors) a second time, so after two identical
clicks the world holds the original entities plus two identical batches of
markers. -/
theorem repeated_click_deterministic (env : Env) (w : World) :
    clickSpawns env (clickStep env w) = clickSpawns env w ∧
    (clickStep env (clickStep env w)).entities =
      w.entities ++ markerEntities w.nextId (clickSpawns env w) ++
        markerEntities (w.nextId + (clickSpawns env w).length) (clickSpawns env w) := by
  have h1 : clickSpawns env (clickStep env w) = clickSpawns env w := by
    unfold clickSpawns
    rw [planesOf_clickStep]
  have he : ∀ (e : Env) (v : World),
      (clickStep e v).entities = v.entities ++ markerEntities v.nextId (clickSpawns e v) :=
    fun _ _ => rfl
  have hn : ∀ (e : Env) (v : World),
      (clickStep e v).nextId = v.nextId + (clickSpawns e v).length :=
    fun _ _ => rfl
  refine ⟨h1, ?_⟩
  rw [he env (clickStep env w), h1, he env w, hn env w]

/-- C10: the plane query is invariant: `setup` creates exactly two plane
entities (ids 0 and 1), a click never adds or removes a row of the plane
query — every marker entity it spawns carries no `MyPlane` component — and
after any sequence of clicks the query still returns exactly the two
startup planes, so markers are never themselves hit-tested. -/
theorem plane_query_entities_invariant (t2 tc : Transform) (envs : List Env) :
    planesOf (setup t2 tc) =
      [⟨0, Transform.identity, MyPlane.new 3⟩, ⟨1, t2, MyPlane.new 2⟩] ∧
    planesOf (envs.foldl (fun acc e => clickStep e acc) (setup t2 tc)) =
      [⟨0, Transform.identity, MyPlane.new 3⟩, ⟨1, t2, MyPlane.new 2⟩] ∧
    ∀ (env : Env) (w : World),
      planesOf (clickStep env w) = planesOf w ∧
      ∀ r ∈ markerEntities w.nextId (clickSpawns env w), r.myPlane = none := by
  have hsetup : planesOf (setup t2 tc) =
      [⟨0, Transform.identity, MyPlane.new 3⟩, ⟨1, t2, MyPlane.new 2⟩] := rfl
  refine ⟨hsetup, ?_, fun env w => ⟨planesOf_clickStep env w, ?_⟩⟩
  · rw [planesOf_foldl_clickStep, hsetup]
  · intro r hr
    simp only [markerEntities, List.mem_map] at hr
    obtain ⟨p, _, rfl⟩ := hr
    rfl

end BevyIntersectPlane
